import Mathlib

/-!
Shallow embedding of the dreamberd interpreter fork, covering
`src/dreamberd/interpreter/interpreter.py` and
`src/dreamberd/processor/expression_tree.py`.

Modelling conventions, used throughout this file:

* Python numbers are modelled by the exact rationals `ℚ`.  Every concrete input used in a
  theorem below is chosen so that binary floating point and exact arithmetic agree on every
  comparison the evaluated code performs.
* `dreamberd/base.py`, `dreamberd/interpreter/builtin.py` and
  `dreamberd/processor/syntax_tree.py` are not among the two interpreter source files; the
  token kinds, the operator table, the runtime value classes, the coercions and the statement
  dataclasses they export are modelled from the specification and from exactly how the two
  source files use them.  Each such definition carries a comment saying so.
* Functions that can raise in Python return `Except Err _` here; a fatal diagnostic
  (`raise_error_at_token`, per the spec a position-annotated report after which interpretation
  halts) is modelled as `Err.fatal`, and the raw Python exceptions the code can hit
  (`AttributeError`, `TypeError`, `RecursionError`/nontermination, `NameError`, `IndexError`)
  are modelled as their own `Err` constructors.
* Recursive interpreter procedures take an explicit fuel argument; running out of fuel yields
  `Err.recursionLimit`, which models Python nontermination / `RecursionError`.  A result other
  than `Err.recursionLimit` is fuel-independent in the usual way.
* Object identity (`is`, `copy.deepcopy` freshness) does not exist on pure data; where a
  source function consults identity (`is_really_really_equal`) the embedding takes an explicit
  boolean `ref_eq` for `left is right`.  A separate labelled-value model near the end of the
  file deals with the copy-on-read / aliasing claim.
-/

/-- Token kinds, modelled from the spec (§6 tokenizer interface) and from
`expression_tree.py`, which tests exactly `NAME`, `WHITESPACE`, `L_SQUARE`, `R_SQUARE` and
`STRING`.  Numeric literals must be carried as `name` tokens: `expression_tree.py:120` admits
only `NAME`/`L_SQUARE`/`STRING` as leaf values, yet the module docstring requires
`2 * 1+3` to parse, so a number token cannot have a kind of its own.  All other kinds
(operator and punctuation characters) are collapsed into `punct`, which the two source files
never inspect. -/
inductive TokenType where
  | name | whitespace | l_square | r_square | string | punct
  deriving DecidableEq, Repr

/-- A token, modelled from the spec (§6): kind and text.  Source positions are dropped; the
two source files use them only to decorate diagnostics. -/
structure Token where
  type : TokenType
  value : String
  deriving DecidableEq, Repr

/-- Operator tags, modelled from `base.py` usage in the two source files (`OperatorType.COM`,
`.ADD`, `.SUB`, `.MUL`, `.DIV`, `.EXP`, `.OR`, `.AND`, `.E`, `.EE`, `.EEE`, `.EEEE`, `.NE`,
`.NEE`, `.NEEE`, `.GE`, `.LE`, `.LT`, `.GT` all appear in `interpreter.py`). -/
inductive OperatorType where
  | COM | ADD | SUB | MUL | DIV | EXP | OR | AND
  | E | EE | EEE | EEEE | NE | NEE | NEEE | GE | LE | LT | GT
  deriving DecidableEq, Repr

/-- The `.value` of an operator enum member (a Python `Enum` whose values are the operator
spellings: `expression_tree.py:196` compares `updated_list[max_index].value == ','`).
Modelled from the spec; only `","`, `"+"` and `"*"` are exercised by the theorems below. -/
def OperatorType.strValue : OperatorType → String
  | .COM => "," | .ADD => "+" | .SUB => "-" | .MUL => "*" | .DIV => "/" | .EXP => "^"
  | .OR => "|" | .AND => "&"
  | .E => "=" | .EE => "==" | .EEE => "===" | .EEEE => "===="
  | .NE => ";=" | .NEE => ";==" | .NEEE => ";==="
  | .GE => ">=" | .LE => "<=" | .LT => "<" | .GT => ">"

/-- The operator table `STR_TO_OPERATOR` from the absent `base.py`, modelled from the spec
(§4.5 lists the operator families) as the inverse of `OperatorType.strValue`. -/
def STR_TO_OPERATOR : String → Option OperatorType
  | "," => some .COM | "+" => some .ADD | "-" => some .SUB | "*" => some .MUL
  | "/" => some .DIV | "^" => some .EXP | "|" => some .OR | "&" => some .AND
  | "=" => some .E | "==" => some .EE | "===" => some .EEE | "====" => some .EEEE
  | ";=" => some .NE | ";==" => some .NEE | ";===" => some .NEEE
  | ">=" => some .GE | "<=" => some .LE | "<" => some .LT | ">" => some .GT
  | _ => none

/-- Expression tree nodes, from `expression_tree.py` (classes `ListNode`, `ExpressionNode`,
`FunctionNode`, `IndexNode`, `Value`).  Note that `FunctionNode.name` is a `str`: both
constructions in `expression_tree.py` (lines 111 and 212) pass `token.value`. -/
inductive ExpressionTreeNode where
  | ListNode (values : List ExpressionTreeNode)
  | ExpressionNode (left right : ExpressionTreeNode) (operator : OperatorType)
  | FunctionNode (name : String) (args : List ExpressionTreeNode)
  | IndexNode (value index : ExpressionTreeNode)
  | Value (name_or_value : Token)

/-- Statement dataclasses from the absent `syntax_tree.py`, modelled from the spec (§4.2
candidate kinds) and restricted to the fields the embedded functions read:
`determine_statement_type` reads `keyword`, `keywords` and `modifiers`, and the
`FunctionDefinition` payload (`name`, `args`, `code`, `is_async`) is what
`interpret_statement` copies into a `DreamberdFunction`.  Expression slots and other fields
are never inspected on the code paths embedded here and are omitted. -/
inductive CodeStatement where
  | Conditional (keyword : String)
  | WhenStatement (keyword : String)
  | AfterStatement (keyword : String)
  | ClassDeclaration (keyword : String)
  | ReturnStatement (keyword : String)
  | DeleteStatement (keyword : String)
  | FunctionDefinition (keywords : List String) (name : String) (args : List String)
      (code : List (List CodeStatement)) (is_async : Bool)
  | VariableDeclaration (modifiers : List String) (name : String)
  | VariableAssignment (name : String)
  | ExpressionStatement

/-- Runtime values.  The classes live in the absent `builtin.py`; constructors and payloads
are modelled from the spec (§3 Value variants) and from field accesses in `interpreter.py`
(`.value`, `.values`, `.self_dict`, `.namespace`, `.class_name`, `.args`, `.code`,
`.is_async`, `.arg_count`, `.function`).  A `DreamberdObject` namespace maps field names to
their bound values (the spec's `Name` wrapper, an immutable `(identifier, Value)` pair, is
flattened to the `Value`, which is the only part `interpreter.py` reads via `[key].value`).
A `BuiltinFunction` carries its declared arity and an index into an ambient table of native
callables.  `BaseValue` is an instance of the bare `Value` base class, as produced by
`interpreter.py:357`. -/
inductive Value where
  | DreamberdNumber (value : ℚ)
  | DreamberdString (value : String)
  | DreamberdBoolean (value : Option Bool)
  | DreamberdUndefined
  | DreamberdList (values : List Value)
  | DreamberdMap (self_dict : List (String × Value))
  | DreamberdObject (class_name : String) (obj_namespace : List (String × Value))
  | DreamberdFunction (args : List String) (code : List (List CodeStatement)) (is_async : Bool)
  | DreamberdKeyword (value : String)
  | BuiltinFunction (arg_count : Nat) (native_id : Nat)
  | BaseValue

/-- Errors of the embedded interpreter, see the module conventions above. -/
inductive Err where
  | recursionLimit
  | fatal (msg : String)
  | interpretationError (msg : String)
  | attributeError (attr : String)
  | typeError (msg : String)
  | nameError (name : String)
  | indexError
  deriving DecidableEq, Repr

deriving instance DecidableEq for Except

/-- A `Name` or `Variable` binding, from the absent `builtin.py`, modelled from the spec
(§3): a `Name` is an immutable `(identifier, Value)` pair, a `Variable` keeps an ordered
most-recent-first history of values. -/
inductive Binding where
  | Name (name : String) (value : Value)
  | Variable (name : String) (prev_values : List Value)

/-- Current value of a binding.  For a `Variable` the spec says history index 0 is the
current revision (glossary: "index 0 = current"). -/
def Binding.value : Binding → Value
  | .Name _ v => v
  | .Variable _ pv => pv.headD .DreamberdUndefined

/-- One scope: the `Namespace` type alias of `interpreter.py:21`, a dict from identifier to
`Variable | Name`, modelled as an association list with first-match lookup. -/
abbrev Namespace := List (String × Binding)

/-- The async job queue: the `async_statements` lists of `interpreter.py`, pairs of the
remaining candidate-statement tuples and the captured scope stack. -/
abbrev AsyncQueue := List (List (List CodeStatement) × List Namespace)

/-- Python `str.split('.')` (`interpreter.py:69,92`): split on every dot, keeping empty
parts, by structural recursion over the characters. -/
def pySplitDotAux : List Char → List Char → List String
  | [], cur => [String.mk cur.reverse]
  | c :: rest, cur =>
    if c = '.' then String.mk cur.reverse :: pySplitDotAux rest []
    else pySplitDotAux rest (c :: cur)

def pySplitDot (s : String) : List String := pySplitDotAux s.toList []

/-- Python dict `.get`: first (unique) key match in the association list. -/
def nsGet (key : String) : Namespace → Option Binding
  | [] => none
  | (k, b) :: rest => if k = key then some b else nsGet key rest

/-- Equality-engine thresholds from `interpreter.py:16-19` (numeric 0.1, string 0.7,
list 0.7, map 0.6). -/
def NUM_EQUALITY_THRESH : ℚ := 1/10

def STRING_EQUALITY_THRESH : ℚ := 7/10

def LIST_EQUALITY_THRESH : ℚ := 7/10

def MAP_EQUALITY_THRESH : ℚ := 6/10

/-- The epsilon `FLOAT_TO_INT_PREC` from the absent `builtin.py`; modelled from the spec
("a divisor whose magnitude is below a fixed epsilon").  The exact magnitude is never
material below. -/
def FLOAT_TO_INT_PREC : ℚ := 1/1000000000

/-- Discriminant used to embed Python `type(left) != type(right)` over the value classes. -/
def Value.tag : Value → Nat
  | .DreamberdNumber _ => 0
  | .DreamberdString _ => 1
  | .DreamberdBoolean _ => 2
  | .DreamberdUndefined => 3
  | .DreamberdList _ => 4
  | .DreamberdMap _ => 5
  | .DreamberdObject _ _ => 6
  | .DreamberdFunction _ _ _ => 7
  | .DreamberdKeyword _ => 8
  | .BuiltinFunction _ _ => 9
  | .BaseValue => 10

def Value.isString : Value → Bool
  | .DreamberdString _ => true
  | _ => false

def Value.isNumber : Value → Bool
  | .DreamberdNumber _ => true
  | _ => false

def Value.isBoolean : Value → Bool
  | .DreamberdBoolean _ => true
  | _ => false

/-- `db_to_string` from the absent `builtin.py`, modelled from the spec (string coercions
exist for every value).  The exact renderings of composite values are never material to a
theorem below. -/
def db_to_string : Value → String
  | .DreamberdNumber v => toString v
  | .DreamberdString s => s
  | .DreamberdBoolean (some true) => "true"
  | .DreamberdBoolean (some false) => "false"
  | .DreamberdBoolean none => "maybe"
  | .DreamberdUndefined => "undefined"
  | .DreamberdList _ => "[list]"
  | .DreamberdMap _ => "[map]"
  | .DreamberdObject c _ => c
  | .DreamberdFunction _ _ _ => "[function]"
  | .DreamberdKeyword k => k
  | .BuiltinFunction _ _ => "[builtin]"
  | .BaseValue => "[value]"

/-- `db_to_boolean` from the absent `builtin.py`, modelled from the spec (tri-state
coercion; indeterminate is `none`).  A `DreamberdBoolean` coerces to its own payload; the
other cases follow ordinary truthiness.  All theorems below that depend on this coercion
either condition on its result or apply it to `DreamberdBoolean` literals, where every
sound model agrees. -/
def db_to_boolean : Value → Option Bool
  | .DreamberdBoolean b => b
  | .DreamberdNumber v => some (v ≠ 0)
  | .DreamberdString s => some (s ≠ "")
  | .DreamberdUndefined => some false
  | .DreamberdList xs => some (!xs.isEmpty)
  | .DreamberdMap m => some (!m.isEmpty)
  | .DreamberdObject _ _ => some true
  | .DreamberdFunction _ _ _ => some true
  | .DreamberdKeyword _ => some true
  | .BuiltinFunction _ _ => some true
  | .BaseValue => some true

/-- `db_to_number` from the absent `builtin.py`, modelled from the spec (numeric coercion;
a number coerces to itself, booleans and undefined to small constants, anything else is a
raised coercion error).  Only the `DreamberdNumber` case is exercised by a theorem below. -/
def db_to_number : Value → Except Err ℚ
  | .DreamberdNumber v => .ok v
  | .DreamberdBoolean (some true) => .ok 1
  | .DreamberdBoolean (some false) => .ok 0
  | .DreamberdBoolean none => .ok (1/2)
  | .DreamberdUndefined => .ok 0
  | _ => .error (.interpretationError "Cannot convert value to number.")

/-- `db_not` from the absent `builtin.py`, modelled from the spec (tri-state negation:
indeterminate stays indeterminate). -/
def db_not (b : Option Bool) : Option Bool := b.map (fun x => !x)

/-- Python truthiness of a list of booleans coming from `DreamberdBoolean.value` fields:
`all` treats `None` (indeterminate) as falsy. -/
def allTruthy (xs : List (Option Bool)) : Bool := xs.all (fun x => x = some true)

/-- Approximate-equality score of one element comparison, `interpreter.py:128`:
`int(x.value) if x.value is not None else 0.5`. -/
def eqScore : Option Bool → ℚ
  | some true => 1
  | some false => 0
  | none => 1/2

/-- Keys of an association-list dict, in insertion order. -/
def dictKeys (m : List (String × Value)) : List String := m.map Prod.fst

/-- Python `a.keys() & b.keys()` over assoc-list dicts (element test, keeping `a`'s order;
sums and `all` over the result never depend on the order). -/
def keysInter (a b : List (String × Value)) : List String :=
  (dictKeys a).filter (fun k => (dictKeys b).contains k)

/-- Python `a.keys() | b.keys()`: the union, without duplicates. -/
def keysUnion (a b : List (String × Value)) : List String :=
  dictKeys a ++ (dictKeys b).filter (fun k => !(dictKeys a).contains k)

/-- Python `a.keys() == b.keys()`: equality as sets. -/
def keysEqual (a b : List (String × Value)) : Bool :=
  (dictKeys a).all (fun k => (dictKeys b).contains k) &&
  (dictKeys b).all (fun k => (dictKeys a).contains k)

/-- Dict item access `m[key]` (keys are unique in a Python dict). -/
def dictGet (m : List (String × Value)) (key : String) : Value :=
  match m.find? (fun p => p.fst = key) with
  | some p => p.snd
  | none => .DreamberdUndefined

/-- Sequentially compare a list of value pairs with `f`, collecting the `DreamberdBoolean`
payloads (a raised error aborts the whole comprehension, as in Python). -/
def mapPairsExcept (f : Value → Value → Except Err (Option Bool)) :
    List (Value × Value) → Except Err (List (Option Bool))
  | [] => .ok []
  | (a, b) :: rest => do
    let x ← f a b
    let xs ← mapPairsExcept f rest
    .ok (x :: xs)

/-- Guard at `interpreter.py:108`: `isinstance(other, (DreamberdNumber, DreamberdUndefined,
DreamberdBoolean))`. -/
def isNumUndefBool : Value → Bool
  | .DreamberdNumber _ => true
  | .DreamberdUndefined => true
  | .DreamberdBoolean _ => true
  | _ => false

/-- Tier 1, `is_really_really_equal` (`interpreter.py:214-215`): Python reference equality
`left is right`, which has no counterpart on pure data and is therefore passed in as the
explicit bit `ref_eq`. -/
def is_really_really_equal (ref_eq : Bool) : Option Bool := some ref_eq

/-- Tier 4, `is_approx_equal` (`interpreter.py:97-155`).  `ratio` is the
`difflib.SequenceMatcher(None, a, b).ratio()` oracle from the Python standard library,
taken as a parameter; `ref_eq` is `left is right` for the two top-level operands, and the
identity checks of recursive element comparisons are modelled as `false` (elements assumed
not aliased; every theorem below applies this function to non-aliased concrete data).
`FUNCTION_EQUALITY_RATIO` and `OBJECT_EQUALITY_RATIO` (`interpreter.py:144` and `:153`) are
referenced but never defined nor imported in the source file, so the function and object
branches raise `NameError` whenever they reach the threshold comparison. -/
def is_approx_equal (ratio : String → String → ℚ) (ref_eq : Bool) :
    Nat → Value → Value → Except Err (Option Bool)
  | 0, _, _ => .error .recursionLimit
  | fuel+1, left, right =>
    -- line 99: identity short-circuit
    if ref_eq then .ok (some true)
    -- lines 102-104: string similarity
    else if left.isString || right.isString then
      .ok (some (decide (ratio (db_to_string left) (db_to_string right) > STRING_EQUALITY_THRESH)))
    else
      -- `rest` is the shared continuation for both fall-through paths out of the numeric
      -- branch (guard not applicable, lines 112-155)
      let rest : Unit → Except Err (Option Bool) := fun _ =>
        -- lines 112-116: boolean comparison
        if left.isBoolean || right.isBoolean then
          match db_to_boolean left, db_to_boolean right with
          | none, _ => .ok none
          | _, none => .ok none
          | some lb, some rb => .ok (some (lb == rb))
        -- lines 118-119: both coerce to the same concrete truth value
        else if db_to_boolean left == db_to_boolean right && db_to_boolean left ≠ none then
          .ok (some true)
        -- lines 121-122: differing runtime types
        else if left.tag ≠ right.tag then .ok none
        else
          match left, right with
          -- lines 124-129
          | .DreamberdList ls, .DreamberdList rs =>
            if ls.isEmpty && rs.isEmpty then .ok (some true)
            else do
              let eqs ← mapPairsExcept (fun a b => is_approx_equal ratio false fuel a b) (ls.zip rs)
              let score := (eqs.map eqScore).sum / (max ls.length rs.length : ℚ)
              .ok (some (decide (score > LIST_EQUALITY_THRESH)))
          -- lines 131-138
          | .DreamberdMap lm, .DreamberdMap rm =>
            if lm.isEmpty && rm.isEmpty then .ok (some true)
            else do
              let eqs ← mapPairsExcept (fun a b => is_approx_equal ratio false fuel a b)
                ((keysInter lm rm).map (fun k => (dictGet lm k, dictGet rm k)))
              let score := (eqs.map eqScore).sum / ((keysUnion lm rm).length : ℚ)
              .ok (some (decide (score > MAP_EQUALITY_THRESH)))
          -- lines 140-144: nonempty code reaches the undefined name at line 144
          | .DreamberdFunction _ lcode _, .DreamberdFunction _ rcode _ =>
            if lcode.isEmpty && rcode.isEmpty then .ok (some true)
            else .error (.nameError "FUNCTION_EQUALITY_RATIO")
          -- lines 146-153: nonempty namespaces reach the undefined name at line 153
          | .DreamberdObject _ lns, .DreamberdObject _ rns =>
            if lns.isEmpty && rns.isEmpty then .ok (some true)
            else .error (.nameError "OBJECT_EQUALITY_RATIO")
          -- line 155
          | _, _ => .ok none
      -- lines 106-110: numeric branch
      if left.isNumber || right.isNumber then
        -- line 107 picks `other`; under either Python reading of `right == num` (identity for
        -- plain classes, payload equality for dataclasses) the guard below and the formula —
        -- which mentions only left and right — behave identically, so `other` is taken to be
        -- the operand not selected as `num`.
        let other := if left.isNumber then right else left
        if isNumUndefBool other then do
          let left_num ← db_to_number left
          let right_num ← db_to_number right
          .ok (some (left_num == right_num ||
            (if left_num == 0 then false
             else decide ((left_num - right_num) / left_num > NUM_EQUALITY_THRESH))))
        else rest ()
      else rest ()

/-- Tier 3, `is_equal` (`interpreter.py:157-190`).  Note that the map and object branches
delegate element comparison to `is_approx_equal` (lines 181 and 186), and the list branch
zips without a length check (line 178). -/
def is_equal (ratio : String → String → ℚ) :
    Nat → Value → Value → Except Err (Option Bool)
  | 0, _, _ => .error .recursionLimit
  | fuel+1, left, right =>
    -- lines 159-160
    if left.isString || right.isString then
      .ok (some (db_to_string left == db_to_string right))
    -- lines 162-163
    else if left.isNumber || right.isNumber then do
      let ln ← db_to_number left
      let rn ← db_to_number right
      .ok (some (ln == rn))
    -- lines 165-169
    else if left.isBoolean || right.isBoolean then
      match db_to_boolean left, db_to_boolean right with
      | none, _ => .ok none
      | _, none => .ok none
      | some lb, some rb => .ok (some (lb == rb))
    -- lines 171-172
    else if db_to_boolean left == db_to_boolean right && db_to_boolean left ≠ none then
      .ok (some true)
    -- lines 174-175
    else if left.tag ≠ right.tag then .ok none
    else
      match left, right with
      -- lines 177-178
      | .DreamberdList ls, .DreamberdList rs => do
        let eqs ← mapPairsExcept (fun a b => is_equal ratio fuel a b) (ls.zip rs)
        .ok (some (allTruthy eqs))
      -- lines 180-183
      | .DreamberdMap lm, .DreamberdMap rm => do
        let eqs ← mapPairsExcept (fun a b => is_approx_equal ratio false fuel a b)
          ((keysInter lm rm).map (fun k => (dictGet lm k, dictGet rm k)))
        .ok (some (allTruthy eqs))
      -- lines 185-188
      | .DreamberdObject _ lns, .DreamberdObject _ rns => do
        let eqs ← mapPairsExcept (fun a b => is_approx_equal ratio false fuel a b)
          ((keysInter lns rns).map (fun k => (dictGet lns k, dictGet rns k)))
        .ok (some (allTruthy eqs))
      -- line 190
      | _, _ => .ok none

/-- Elementwise conjunction of statement comparisons over one candidate tuple. -/
def codeTupleBeq (f : CodeStatement → CodeStatement → Except Err Bool) :
    List CodeStatement → List CodeStatement → Except Err Bool
  | [], [] => .ok true
  | a :: as2, b :: bs => do
    let x ← f a b
    let y ← codeTupleBeq f as2 bs
    .ok (x && y)
  | _, _ => .ok false

/-- Elementwise conjunction of candidate-tuple comparisons over a statement body. -/
def codeListBeq (f : CodeStatement → CodeStatement → Except Err Bool) :
    List (List CodeStatement) → List (List CodeStatement) → Except Err Bool
  | [], [] => .ok true
  | a :: as2, b :: bs => do
    let x ← codeTupleBeq f a b
    let y ← codeListBeq f as2 bs
    .ok (x && y)
  | _, _ => .ok false

/-- Structural equality of `syntax_tree.py` statement dataclasses, modelled from the spec
(§4.4 tier 2: "Function: code body, parameter list, async flag must match") as Python
dataclass `==`, with fuel for the nested statement bodies. -/
def codeStatementBeq : Nat → CodeStatement → CodeStatement → Except Err Bool
  | 0, _, _ => .error .recursionLimit
  | fuel+1, a, b =>
    match a, b with
    | .Conditional k1, .Conditional k2 => .ok (k1 == k2)
    | .WhenStatement k1, .WhenStatement k2 => .ok (k1 == k2)
    | .AfterStatement k1, .AfterStatement k2 => .ok (k1 == k2)
    | .ClassDeclaration k1, .ClassDeclaration k2 => .ok (k1 == k2)
    | .ReturnStatement k1, .ReturnStatement k2 => .ok (k1 == k2)
    | .DeleteStatement k1, .DeleteStatement k2 => .ok (k1 == k2)
    | .FunctionDefinition kws1 n1 args1 code1 asy1, .FunctionDefinition kws2 n2 args2 code2 asy2 => do
      let c ← codeListBeq (codeStatementBeq fuel) code1 code2
      .ok (kws1 == kws2 && n1 == n2 && args1 == args2 && c && asy1 == asy2)
    | .VariableDeclaration m1 n1, .VariableDeclaration m2 n2 => .ok (m1 == m2 && n1 == n2)
    | .VariableAssignment n1, .VariableAssignment n2 => .ok (n1 == n2)
    | .ExpressionStatement, .ExpressionStatement => .ok true
    | _, _ => .ok false

/-- Tier 2, `is_really_equal` (`interpreter.py:192-212`). -/
def is_really_equal : Nat → Value → Value → Except Err (Option Bool)
  | 0, _, _ => .error .recursionLimit
  | fuel+1, left, right =>
    -- lines 193-194
    if left.tag ≠ right.tag then .ok (some false)
    else
      match left, right with
      -- lines 196-197
      | .DreamberdNumber a, .DreamberdNumber b => .ok (some (a == b))
      | .DreamberdString a, .DreamberdString b => .ok (some (a == b))
      | .DreamberdBoolean a, .DreamberdBoolean b => .ok (some (a == b))
      | .DreamberdKeyword a, .DreamberdKeyword b => .ok (some (a == b))
      -- lines 198-199
      | .DreamberdUndefined, .DreamberdUndefined => .ok (some true)
      -- lines 200-203 (the Python `and` chain short-circuits before the comprehension)
      | .DreamberdObject c1 ns1, .DreamberdObject c2 ns2 =>
        if c1 ≠ c2 then .ok (some false)
        else if !keysEqual ns1 ns2 then .ok (some false)
        else do
          let eqs ← mapPairsExcept (fun a b => is_really_equal fuel a b)
            ((dictKeys ns1).map (fun k => (dictGet ns1 k, dictGet ns2 k)))
          .ok (some (allTruthy eqs))
      -- lines 204-205 (dataclass equality of code, args, is_async)
      | .DreamberdFunction args1 code1 asy1, .DreamberdFunction args2 code2 asy2 => do
        let c ← codeListBeq (codeStatementBeq fuel) code1 code2
        .ok (some (c && args1 == args2 && asy1 == asy2))
      -- lines 206-208
      | .DreamberdList ls, .DreamberdList rs =>
        if ls.length ≠ rs.length then .ok (some false)
        else do
          let eqs ← mapPairsExcept (fun a b => is_really_equal fuel a b) (ls.zip rs)
          .ok (some (allTruthy eqs))
      -- lines 209-211
      | .DreamberdMap lm, .DreamberdMap rm =>
        if !keysEqual lm rm then .ok (some false)
        else do
          let eqs ← mapPairsExcept (fun a b => is_really_equal fuel a b)
            ((dictKeys lm).map (fun k => (dictGet lm k, dictGet rm k)))
          .ok (some (allTruthy eqs))
      -- line 212
      | _, _ => .ok none

/-- `is_less_than` (`interpreter.py:217-233`).  A type mismatch raises an
`InterpretationError`; keyword, object and function operands raise as well; a bare
`BaseValue` pair falls off the `match` to the final `maybe` (line 233). -/
def is_less_than (left right : Value) : Except Err (Option Bool)  :=
  -- lines 218-219
  if left.tag ≠ right.tag then
    .error (.interpretationError "Cannot compare two values of different types.")
  else
    match left, right with
    -- lines 221-224
    | .DreamberdNumber a, .DreamberdNumber b => .ok (some (decide (a < b)))
    | .DreamberdString a, .DreamberdString b => .ok (some (decide (a < b)))
    | .DreamberdBoolean a, .DreamberdBoolean b =>
      match a, b with
      | none, _ => .ok none
      | _, none => .ok none
      | some x, some y => .ok (some (decide (x < y)))
    -- lines 225-226
    | .DreamberdUndefined, .DreamberdUndefined => .ok (some false)
    -- lines 227-228
    | .DreamberdList ls, .DreamberdList rs => .ok (some (decide (ls.length < rs.length)))
    -- lines 229-230
    | .DreamberdMap lm, .DreamberdMap rm => .ok (some (decide (lm.length < rm.length)))
    -- lines 231-232
    | .DreamberdKeyword _, .DreamberdKeyword _ =>
      .error (.interpretationError "Comparison not supported between elements of type DreamberdKeyword.")
    | .DreamberdObject _ _, .DreamberdObject _ _ =>
      .error (.interpretationError "Comparison not supported between elements of type DreamberdObject.")
    | .DreamberdFunction _ _ _, .DreamberdFunction _ _ _ =>
      .error (.interpretationError "Comparison not supported between elements of type DreamberdFunction.")
    -- line 233
    | _, _ => .ok none

/-- Python `bool(x)` for a `DreamberdBoolean` instance.  The class (a dataclass per the
spec's data model, defined in the absent `builtin.py`) declares no `__bool__` or `__len__`,
so the instance is always truthy regardless of its tri-state payload — this is the object
`interpreter.py:292` tests with a bare `if`, having omitted the `.value` that every other
truthiness test in the file spells out (for example line 99). -/
def dreamberdBooleanObjectTruthy (_payload : Option Bool) : Bool := true

/-- Whether a rational is integral, `is_int` from the absent `builtin.py` (modelled from the
spec: exponentiation distinguishes integer exponents). -/
def is_int (q : ℚ) : Bool := q.den == 1

/-- `perform_two_value_operation` (`interpreter.py:235-304`).

* `ratio` and `ref_eq` are as in `is_approx_equal`; `coin` injects the
  `random.random() < 0.50` draw of lines 265 and 274 (`true` picks the left operand).
* An `InterpretationError` raised inside the `try` block surfaces as a fatal diagnostic at
  the operator token (lines 302-303); both are halting errors here, so errors simply
  propagate.
* At line 292 the source tests the `DreamberdBoolean` object returned by
  `is_really_equal` for truthiness instead of reading `.value`, so the `>=`/`<=` arm always
  takes the structural-equality shortcut; the ordering fallback of lines 294-296 is embedded
  but unreachable.
* At line 297 the source writes `case OperatorType.LT, OperatorType.GT:`, a two-element
  tuple pattern that an `OperatorType` subject never matches, so `<` and `>` fall through
  the whole `match` to the catch-all `raise_error_at_token` at line 304, as does `COM`.
* Exponentiation with an integral exponent is exact over `ℚ`; a non-integral exponent with
  an admissible base produces a float power with no rational counterpart, modelled as a
  fatal error (no theorem below touches it). -/
def perform_two_value_operation (ratio : String → String → ℚ) (ref_eq : Bool) (coin : Bool)
    (fuel : Nat) (left right : Value) (operator : OperatorType) : Except Err Value :=
  match operator with
  -- lines 238-243
  | .ADD =>
    if left.isString || right.isString then
      .ok (.DreamberdString (db_to_string left ++ db_to_string right))
    else do
      let left_num ← db_to_number left
      let right_num ← db_to_number right
      .ok (.DreamberdNumber (left_num + right_num))
  -- lines 244-256
  | .SUB | .MUL | .DIV | .EXP => do
    let left_num ← db_to_number left
    let right_num ← db_to_number right
    if operator = .DIV && |right_num| < FLOAT_TO_INT_PREC then
      .ok .DreamberdUndefined
    else if operator = .EXP && left_num < -FLOAT_TO_INT_PREC && !is_int right_num then
      .error (.interpretationError "Cannot raise a negative base to a non-integer exponent.")
    else
      match operator with
      | .SUB => .ok (.DreamberdNumber (left_num - right_num))
      | .MUL => .ok (.DreamberdNumber (left_num * right_num))
      | .DIV => .ok (.DreamberdNumber (left_num / right_num))
      | .EXP =>
        if is_int right_num then .ok (.DreamberdNumber (left_num ^ right_num.num))
        else .error (.fatal "non-integral exponent is a float power, outside the model")
      | _ => .error (.fatal "Something went wrong here.")
  -- lines 257-265
  | .OR =>
    match db_to_boolean left, db_to_boolean right with
    | some true, _ => .ok left
    | some false, _ => .ok right
    | none, some true => .ok right
    | none, some false => .ok left
    | none, none => .ok (if coin then left else right)
  -- lines 266-274
  | .AND =>
    match db_to_boolean left, db_to_boolean right with
    | some true, _ => .ok right
    | some false, _ => .ok left
    | none, some true => .ok left
    | none, some false => .ok right
    | none, none => .ok (if coin then left else right)
  -- lines 275-276
  | .E => do
    let b ← is_approx_equal ratio ref_eq fuel left right
    .ok (.DreamberdBoolean b)
  -- lines 279-282
  | .EE => do
    let b ← is_equal ratio fuel left right
    .ok (.DreamberdBoolean b)
  | .NE => do
    let b ← is_equal ratio fuel left right
    .ok (.DreamberdBoolean (db_not b))
  -- lines 283-286
  | .EEE => do
    let b ← is_really_equal fuel left right
    .ok (.DreamberdBoolean b)
  | .NEE => do
    let b ← is_really_equal fuel left right
    .ok (.DreamberdBoolean (db_not b))
  -- lines 287-290
  | .EEEE => .ok (.DreamberdBoolean (is_really_really_equal ref_eq))
  | .NEEE => .ok (.DreamberdBoolean (db_not (is_really_really_equal ref_eq)))
  -- lines 291-296
  | .GE | .LE => do
    let b ← is_really_equal fuel left right
    if dreamberdBooleanObjectTruthy b then
      .ok (.DreamberdBoolean (some true))
    else if operator = .LE then do
      let lt ← is_less_than left right
      .ok (.DreamberdBoolean lt)
    else do
      let lt ← is_less_than left right
      .ok (.DreamberdBoolean (db_not lt))
  -- line 297 writes a tuple pattern, so LT and GT reach line 304 instead
  | .LT | .GT => .error (.fatal "Something went wrong here.")
  -- a COM operator matches no arm and also reaches line 304
  | .COM => .error (.fatal "Something went wrong here.")

/-- The scope scan of `get_value_from_namespaces` for a plain name
(`interpreter.py:70-72`): `for ns in namespaces`, first hit wins.  The interpreter builds
the scope list outermost-first (`main` starts it with the KEYWORDS scope and
`evaluate_normal_function` appends each callee scope at the end, lines 43 and 54), so this
scan meets the outermost scope first. -/
def scanScopes (val : String) : List Namespace → Option Binding
  | [] => none
  | ns :: rest =>
    match nsGet val ns with
    | some v => some v
    | none => scanScopes val rest

/-- The per-segment walk of `get_value_from_namespaces` (`interpreter.py:78-84`),
unreachable in practice (see below).  `getattr(base_val.value, "namespace")` succeeds only
on a `DreamberdObject` (line 79; anything else raises AttributeError); an empty namespace
dict is falsy and yields absence (line 80); otherwise line 81 passes the namespace dict
where a list of scopes is expected, and the nested scan then iterates the dict keys as
scopes and calls `.get` on a string, raising AttributeError. -/
def dottedWalk : Binding → List String → Except Err (Option Binding)
  | b, [] => .ok (some b)
  | b, _seg :: _rest =>
    match b.value with
    | .DreamberdObject _ ns =>
      if ns.isEmpty then .ok none
      else .error (.attributeError "get")
    | _ => .error (.attributeError "namespace")

/-- `get_value_from_namespaces` (`interpreter.py:67-85`).  A plain name is scanned for in
the scope list (first match wins, absence gives `none`, line 85).  For a dotted name, line
74 computes `base_name = v[0]` but never uses it, and line 75 recurses on the full dotted
`val` with the same scope list — the call reduces to itself and never terminates, which the
fuel models as `recursionLimit`; the segment walk after it is dead code. -/
def get_value_from_namespaces : Nat → String → List Namespace → Except Err (Option Binding)
  | 0, _, _ => .error .recursionLimit
  | fuel+1, val, namespaces =>
    let v := pySplitDot val
    if v.length = 1 then
      .ok (scanScopes val namespaces)
    else
      match get_value_from_namespaces fuel val namespaces with
      | .error e => .error e
      | .ok none => .ok none
      | .ok (some base_val) => dottedWalk base_val v.tail

/-- Decimal digit string to natural number (`s` is known to satisfy `isdigit`). -/
def digitsToNat (s : String) : Nat := s.foldl (fun n c => n * 10 + (c.toNat - 48)) 0

/-- `determine_non_name_value` (`interpreter.py:87-95`): a token whose text splits on `.`
into at most two all-digit parts becomes an int (one part) or float (two parts), anything
else a string.  Python's `"".isdigit()` is false, so every part must be nonempty. -/
def determine_non_name_value (val : Token) : Value :=
  let v := pySplitDot val.value
  if v.length ≤ 2 && v.all (fun p => p ≠ "" && p.toList.all Char.isDigit) then
    match v with
    | [a] => .DreamberdNumber (digitsToNat a)
    | [a, b] => .DreamberdNumber ((digitsToNat a : ℚ) + (digitsToNat b : ℚ) / (10 ^ b.length))
    | _ => .DreamberdString val.value
  else .DreamberdString val.value

/-- Backtracking matcher for a regular expression that is a sequence of individually
optional literal characters, applied at the start of the string and free at the right end —
exactly the semantics of `re.match` with pattern `f?u?n?c?t?i?o?n?`
(`interpreter.py:455,461`): `re.match` anchors only the left end, so trailing unconsumed
characters are fine. -/
def matchOptSeqHere : List Char → List Char → Bool
  | [], _ => true
  | _ :: ps, [] => matchOptSeqHere ps []
  | p :: ps, c :: cs =>
    if p = c then matchOptSeqHere ps cs || matchOptSeqHere ps (c :: cs)
    else matchOptSeqHere ps (c :: cs)

def FUNCTION_PAT : List Char := ['f', 'u', 'n', 'c', 't', 'i', 'o', 'n']

/-- Truthiness of `re.match(r"f?u?n?c?t?i?o?n?", s)` as used at `interpreter.py:455` and
`:461`. -/
def re_match_function (s : String) : Bool := matchOptSeqHere FUNCTION_PAT s.toList

/-- Fullmatch variant of the same pattern: every character of the string must be consumed.
Modelled from the spec: a "flexible spelling of the keyword `function`" is a string the
pattern `f?u?n?c?t?i?o?n?` matches in its entirety, i.e. an order-preserving selection of
the letters of `function`.  This is the intended acceptance condition the claim describes,
kept separate from the source's unanchored `re_match_function` for comparison. -/
def matchOptSeqFull : List Char → List Char → Bool
  | _, [] => true
  | [], _ :: _ => false
  | p :: ps, c :: cs =>
    if p = c then matchOptSeqFull ps cs || matchOptSeqFull ps (c :: cs)
    else matchOptSeqFull ps (c :: cs)

def specFlexibleFunctionSpelling (s : String) : Bool := matchOptSeqFull FUNCTION_PAT s.toList

/-- The `instance_to_keywords` table of `determine_statement_type`
(`interpreter.py:439-446`), with the accepted spellings per keyword-anchored kind. -/
def instanceKeywords : CodeStatement → Option (List String)
  | .Conditional _ => some ["if"]
  | .WhenStatement _ => some ["when"]
  | .AfterStatement _ => some ["after"]
  | .ClassDeclaration _ => some ["class", "className"]
  | .ReturnStatement _ => some ["return"]
  | .DeleteStatement _ => some ["delete"]
  | _ => none

/-- The `keyword` attribute of the six single-keyword statement kinds. -/
def CodeStatement.keywordField : CodeStatement → String
  | .Conditional k => k
  | .WhenStatement k => k
  | .AfterStatement k => k
  | .ClassDeclaration k => k
  | .ReturnStatement k => k
  | .DeleteStatement k => k
  | _ => ""

/-- Whether a resolved binding is a `DreamberdKeyword` with a spelling in `allowed`
(the repeated `val is not None and isinstance(val.value, DreamberdKeyword) and
val.value.value in ...` pattern of `determine_statement_type`). -/
def bindingIsKeywordIn (allowed : List String) : Option Binding → Bool
  | some b =>
    match b.value with
    | .DreamberdKeyword s => allowed.contains s
    | _ => false
  | none => false

def CodeStatement.isVariableAssignment : CodeStatement → Bool
  | .VariableAssignment _ => true
  | _ => false

def CodeStatement.isExpressionStatement : CodeStatement → Bool
  | .ExpressionStatement => true
  | _ => false

/-- First pass of `determine_statement_type` (`interpreter.py:447-473`): the
keyword-anchored candidates, in order, first acceptance wins.  The function-definition
branch uses the unanchored `re.match` truthiness for the "function" slot, and a literal
comparison for the "async" slot; the variable-declaration branch requires two modifiers in
const/var or three modifiers all const. -/
def determineLoop1 (fuel : Nat) (namespaces : List Namespace) :
    List CodeStatement → Except Err (Option CodeStatement)
  | [] => .ok none
  | st :: rest => do
    match instanceKeywords st with
    | some kw =>
      -- lines 448-451
      let val ← get_value_from_namespaces fuel st.keywordField namespaces
      if bindingIsKeywordIn kw val then .ok (some st)
      else determineLoop1 fuel namespaces rest
    | none =>
      match st with
      | .FunctionDefinition kws _ _ _ _ =>
        match kws with
        -- lines 453-456
        | [k1] => do
          let val ← get_value_from_namespaces fuel k1 namespaces
          match val with
          | some b =>
            match b.value with
            | .DreamberdKeyword s =>
              if re_match_function s then .ok (some st)
              else determineLoop1 fuel namespaces rest
            | _ => determineLoop1 fuel namespaces rest
          | none => determineLoop1 fuel namespaces rest
        -- lines 457-462
        | [k1, k2] => do
          let val ← get_value_from_namespaces fuel k1 namespaces
          let other_val ← get_value_from_namespaces fuel k2 namespaces
          match val, other_val with
          | some b1, some b2 =>
            match b1.value, b2.value with
            | .DreamberdKeyword s1, .DreamberdKeyword s2 =>
              if re_match_function s1 && s2 == "async" then .ok (some st)
              else determineLoop1 fuel namespaces rest
            | _, _ => determineLoop1 fuel namespaces rest
          | _, _ => determineLoop1 fuel namespaces rest
        | _ => determineLoop1 fuel namespaces rest
      | .VariableDeclaration mods _ =>
        match mods with
        -- lines 464-468
        | [m1, m2] => do
          let v1 ← get_value_from_namespaces fuel m1 namespaces
          let v2 ← get_value_from_namespaces fuel m2 namespaces
          if bindingIsKeywordIn ["const", "var"] v1 && bindingIsKeywordIn ["const", "var"] v2 then
            .ok (some st)
          else determineLoop1 fuel namespaces rest
        -- lines 469-473
        | [m1, m2, m3] => do
          let v1 ← get_value_from_namespaces fuel m1 namespaces
          let v2 ← get_value_from_namespaces fuel m2 namespaces
          let v3 ← get_value_from_namespaces fuel m3 namespaces
          if bindingIsKeywordIn ["const"] v1 && bindingIsKeywordIn ["const"] v2 &&
             bindingIsKeywordIn ["const"] v3 then
            .ok (some st)
          else determineLoop1 fuel namespaces rest
        | _ => determineLoop1 fuel namespaces rest
      | _ => determineLoop1 fuel namespaces rest

/-- `determine_statement_type` (`interpreter.py:438-482`): the keyword-anchored pass, then
the first `VariableAssignment` candidate, then the first `ExpressionStatement` candidate,
else no acceptance. -/
def determine_statement_type (fuel : Nat) (possible_statements : List CodeStatement)
    (namespaces : List Namespace) : Except Err (Option CodeStatement) := do
  let r ← determineLoop1 fuel namespaces possible_statements
  match r with
  | some st => .ok (some st)
  | none =>
    -- lines 476-482
    match possible_statements.find? CodeStatement.isVariableAssignment with
    | some st => .ok (some st)
    | none => .ok (possible_statements.find? CodeStatement.isExpressionStatement)

/-- `copy.deepcopy` on the pure value model is the identity; the freshness it provides in
Python (a new object graph) is treated in the labelled-value model further below. -/
def deepcopy (v : Value) : Value := v

/-- Sequential left-to-right evaluation of a list of subtrees with `f`, threading the async
queue (the argument/element list comprehensions of `interpreter.py:28` and `:342`). -/
def evalListWith (f : ExpressionTreeNode → AsyncQueue → Except Err (Value × AsyncQueue)) :
    List ExpressionTreeNode → AsyncQueue → Except Err (List Value × AsyncQueue)
  | [], q => .ok ([], q)
  | x :: xs, q => do
    let (v, q1) ← f x q
    let (vs, q2) ← evalListWith f xs q1
    .ok (v :: vs, q2)

/-- `evaluate_expression` (`interpreter.py:306-357`).

* `FunctionNode` (lines 309-339): line 312 immediately evaluates `expr.name.value`, but
  `FunctionNode.name` is a `str` (`expression_tree.py:111,212`), which has no attribute
  `value`, so every function-call evaluation raises AttributeError; the await handling and
  the calls into `register_async_function` / `evaluate_normal_function` are unreachable
  from here.
* `Value` (lines 343-349): resolve the token text as a name and return a deep copy of the
  bound value, else fall back to literal parsing.
* `IndexNode` (lines 351-352): `pass`, falling through the `match` to `return Value()` at
  line 357 — a bare base-class instance, with neither subtree evaluated.
* `ExpressionNode` (lines 353-356): both operands are evaluated, and then line 356 reads
  `expr.operator_token`, an attribute the `ExpressionNode` class of `expression_tree.py`
  does not define, raising AttributeError before `perform_two_value_operation` is reached. -/
def evaluate_expression (fuel : Nat) (expr : ExpressionTreeNode) (namespaces : List Namespace)
    (async_statements : AsyncQueue) : Except Err (Value × AsyncQueue) :=
  match fuel with
  | 0 => .error .recursionLimit
  | fuel'+1 =>
    match expr with
    | .FunctionNode _name _args => .error (.attributeError "value")
    | .ListNode values => do
      let (vals, q) ← evalListWith (fun x q => evaluate_expression fuel' x namespaces q)
        values async_statements
      .ok (.DreamberdList vals, q)
    | .Value name_or_value => do
      let v ← get_value_from_namespaces fuel name_or_value.value namespaces
      match v with
      | some b => .ok (deepcopy b.value, async_statements)
      | none => .ok (determine_non_name_value name_or_value, async_statements)
    | .IndexNode _value _index => .ok (.BaseValue, async_statements)
    | .ExpressionNode left right _operator => do
      let (_left_val, q1) ← evaluate_expression fuel' left namespaces async_statements
      let (_right_val, q2) ← evaluate_expression fuel' right namespaces q1
      let _ := q2
      .error (.attributeError "operator_token")

/-- `interpret_code_statements` (`interpreter.py:601-617`).  The loop head is
`curr = 0; while curr < len(statements):` and `curr` is never incremented anywhere in the
body; independently of that, the body cannot complete even a single iteration, because line
610 calls the six-parameter `interpret_statement` with only five arguments
(`name_watchers` is missing), raising TypeError.  So an empty statement list falls through
the loop and returns `None`, and a nonempty one resolves its first statement (a
`ReturnStatement` additionally hits the `pass` of line 609) and then raises; the
round-robin async advancement of lines 611-617 is unreachable. -/
def interpret_code_statements (fuel : Nat) (statements : List (List CodeStatement))
    (namespaces : List Namespace) (async_statements : AsyncQueue) :
    Except Err (Option Value × AsyncQueue) :=
  match statements with
  | [] => .ok (none, async_statements)
  | first :: _ => do
    let st ← determine_statement_type fuel first namespaces
    match st with
    | none => .error (.interpretationError "Error parsing statement. Try again.")
    | some _st =>
      .error (.typeError "interpret_statement() missing 1 required positional argument: name_watchers")

/-- The table of native callables backing `BuiltinFunction` values: index, received
argument list, and either an intentionally raised `InterpretationError` (the `except`
clause of `interpreter.py:36`) or an optional return value (`None` becomes falsy and is
replaced by `DreamberdUndefined` through the `or` of line 35). -/
abbrev NativeEnv := Nat → List Value → Except String (Option Value)

/-- `evaluate_normal_function` (`interpreter.py:27-47`): evaluate the argument subtrees
left to right, then

* builtin callee (lines 31-37): more arguments than the declared arity is a fatal
  diagnostic; otherwise the native callable receives `args[:func.arg_count]` and a raised
  `InterpretationError` becomes a fatal diagnostic at the call site, a `None`-ish result
  becomes `DreamberdUndefined`;
* user function callee (lines 40-47): more arguments than parameters is fatal; otherwise
  parameters are zipped with arguments into a fresh scope appended at the end of the scope
  list and the body runs under `interpret_code_statements` (whose line-610 TypeError makes
  any nonempty body fatal), an absent return value becoming `DreamberdUndefined`;
* any other callee would fault on its missing function attributes (callers guard this). -/
def evaluate_normal_function (env : NativeEnv) (fuel : Nat) (_name : String)
    (args_exprs : List ExpressionTreeNode) (func : Value) (namespaces : List Namespace)
    (async_statements : AsyncQueue) : Except Err (Value × AsyncQueue) := do
  let (args, q1) ← evalListWith (fun x q => evaluate_expression fuel x namespaces q)
    args_exprs async_statements
  match func with
  | .BuiltinFunction arg_count native_id =>
    if arg_count < args.length then
      .error (.fatal "Expected more arguments for function call.")
    else
      match env native_id (args.take arg_count) with
      | .error e => .error (.fatal e)
      | .ok r => .ok (r.getD .DreamberdUndefined, q1)
  | .DreamberdFunction fargs fcode _is_async =>
    if fargs.length < args.length then
      .error (.fatal "Expected more arguments for function call.")
    else do
      let new_namespace : Namespace :=
        (fargs.zip args).map (fun p => (p.fst, Binding.Name p.fst p.snd))
      let (retval, q2) ← interpret_code_statements fuel fcode (namespaces ++ [new_namespace]) q1
      .ok (retval.getD .DreamberdUndefined, q2)
  | _ => .error (.attributeError "args")

instance : Inhabited Token := ⟨⟨.name, ""⟩⟩

/-- Python list indexing: a negative index counts from the end, and an out-of-range index
is an IndexError (`none`). -/
def pyIdx (tokens : List Token) (i : Int) : Option Token :=
  if i < 0 then
    if tokens.length + i < 0 then none else tokens.get? (tokens.length + i).toNat
  else tokens.get? i.toNat

/-- The operator scan of `build_expression_tree` (`expression_tree.py:81-101`): walk the
token run tracking square-bracket depth; for every token that `STR_TO_OPERATOR` converts,
at depth 0, measure the whitespace immediately before (`tokens[i-1]`, which for `i = 0` is
Python's `tokens[-1]`, the last token) and after (`tokens[i+1]`; running off the end is the
IndexError the source catches and reports as "Operator cannot be at the end of an
expression").  Unequal sides on a non-comma operator are fatal; otherwise a trailing width
at least as large as the current maximum moves the split point here (so ties go to the
later occurrence).  Returns the final `(max_width, max_index)`, with `none` for the
sentinel `-1`. -/
def findMaxOperatorAux (tokens : List Token) :
    List Token → Nat → Int → Nat → Option Nat → Except Err (Nat × Option Nat)
  | [], _, _, maxW, maxI => .ok (maxW, maxI)
  | t :: rest, i, layers, maxW, maxI =>
    let layers' := if t.type = .l_square then layers + 1
                   else if t.type = .r_square then layers - 1 else layers
    match STR_TO_OPERATOR t.value with
    | some op =>
      if layers' = 0 then
        let l_len := match pyIdx tokens ((i : Int) - 1) with
                     | some tp => if tp.type = .whitespace then tp.value.length else 0
                     | none => 0
        match pyIdx tokens ((i : Int) + 1) with
        | none => .error (.fatal "Operator cannot be at the end of an expression.")
        | some tn =>
          let r_len := if tn.type = .whitespace then tn.value.length else 0
          if l_len ≠ r_len && op ≠ .COM then
            .error (.fatal "Whitespace must be equal on either side of an operator.")
          else if r_len ≥ maxW then findMaxOperatorAux tokens rest (i+1) layers' r_len (some i)
          else findMaxOperatorAux tokens rest (i+1) layers' maxW maxI
      else findMaxOperatorAux tokens rest (i+1) layers' maxW maxI
    | none => findMaxOperatorAux tokens rest (i+1) layers' maxW maxI

def findMaxOperator (tokens : List Token) : Except Err (Nat × Option Nat) :=
  findMaxOperatorAux tokens tokens 0 0 0 none

/-- Scan for the first point (indexing from 1 into the whitespace-stripped run) where the
bracket depth opened by a leading `[` returns to zero (`expression_tree.py:127-135`). -/
def firstClosingAux : List Token → Int → Nat → Option Nat
  | [], _, _ => none
  | t :: rest, layers, i =>
    let layers' := if t.type = .l_square then layers + 1
                   else if t.type = .r_square then layers - 1 else layers
    if layers' = 0 then some i else firstClosingAux rest layers' (i+1)

/-- The comma collection of the list branch (`expression_tree.py:150-160`): iterate
`zip(tokens[:-1], updated_list)` tracking depth; keep a comma at depth 1 whose following
token matches the inner width (the parenthesization of the source condition is
`l_width == 0 or (l_width == len(tokens[i+1].value) and tokens[i+1].type == WHITESPACE)`). -/
def listCommasAux (tokens : List Token) (l_width : Nat) : List Token → Nat → Int → List Nat
  | [], _, _ => []
  | t :: rest, i, layers =>
    let layers' := if t.type = .l_square then layers + 1
                   else if t.type = .r_square then layers - 1 else layers
    let keep := STR_TO_OPERATOR t.value = some .COM && layers' = 1 &&
      (l_width = 0 ||
        (l_width = (tokens.getD (i+1) default).value.length &&
         (tokens.getD (i+1) default).type = .whitespace))
    if keep then i :: listCommasAux tokens l_width rest (i+1) layers'
    else listCommasAux tokens l_width rest (i+1) layers'

/-- The comma collection of the function branch (`expression_tree.py:205-209`): every
position whose converted entry has `.value` equal to `","` (only an actual `COM` operator
can, since any token spelled `,` was converted), kept when `max_width == 0` or when the
following token is whitespace of exactly the winning width (the source compares
`(tokens[i+1].type == WHITESPACE and len(tokens[i+1].value)) == max_width`, which for a
nonzero `max_width` is exactly that conjunction; `tokens[i+1]` cannot run off the end here
because a trailing operator was already fatal in the scan). -/
def funcCommasAux (tokens : List Token) (maxW : Nat) : List Token → Nat → List Nat
  | [], _ => []
  | t :: rest, i =>
    let v := match STR_TO_OPERATOR t.value with
             | some op => op.strValue
             | none => t.value
    let keep := v = "," &&
      (maxW = 0 ||
        ((tokens.getD (i+1) default).type = .whitespace &&
         (tokens.getD (i+1) default).value.length = maxW))
    if keep then i :: funcCommasAux tokens maxW rest (i+1)
    else funcCommasAux tokens maxW rest (i+1)

/-- Argument/element segments between separators: `zip([start, *commas], [*commas, stop])`
mapped to the slices `tokens[c+1:n]` (`expression_tree.py:164-169` and `:212-217`). -/
def segmentSlices (tokens : List Token) (startIdx : Nat) (commas : List Nat) (stopIdx : Nat) :
    List (List Token) :=
  ((startIdx :: commas).zip (commas ++ [stopIdx])).map
    (fun p => (tokens.drop (p.fst + 1)).take (p.snd - (p.fst + 1)))

/-- Build every segment with `f`, aborting on the first failure. -/
def buildEach (f : List Token → Except Err ExpressionTreeNode) :
    List (List Token) → Except Err (List ExpressionTreeNode)
  | [] => .ok []
  | s :: rest => do
    let t ← f s
    let ts ← buildEach f rest
    .ok (t :: ts)

/-- The backward scan of the index branch (`expression_tree.py:179-191`): starting from
depth `-1` (accounting for the trailing `]` just outside the range), walk
`tokens[:end_index]` from the back and return the first position where the depth returns
to zero. -/
def findIndexSplitRev (pairs : List (Nat × Token)) (layers : Int) : Option Nat :=
  match pairs with
  | [] => none
  | (i, t) :: rest =>
    let layers' := if t.type = .l_square then layers + 1
                   else if t.type = .r_square then layers - 1 else layers
    if layers' = 0 then some i else findIndexSplitRev rest layers' 

/-- `build_expression_tree` (`expression_tree.py:58-224`), with fuel for the recursion on
sub-runs.  Branch order follows the source: empty run and tab checks, the operator scan,
the single-argument function form (identifier, whitespace wider than every operator gap,
value start), then — with no operator — leaf validation, the full-span list form, the
trailing-index form and the bare leaf; with a winning comma, the function-call form; with
any other winning operator, the binary split. -/
def build_expression_tree (fuel : Nat) (tokens : List Token) : Except Err ExpressionTreeNode :=
  match fuel with
  | 0 => .error .recursionLimit
  | fuel'+1 =>
    -- lines 66-67
    if tokens.isEmpty then
      .error (.interpretationError "Something went wrong, I don't know what so figure it out :)")
    -- lines 69-71
    else if tokens.any (fun t => t.type = .whitespace && t.value.toList.contains '\t') then
      .error (.fatal "Tabs are not allowed in expressions.")
    else do
      let tokens_without_whitespace := tokens.filter (fun t => t.type ≠ .whitespace)
      let starts_with_whitespace := (tokens.headD default).type = .whitespace
      let ends_with_whitespace := (tokens.getLastD default).type = .whitespace
      let fni := if starts_with_whitespace then 1 else 0
      let ewi := if ends_with_whitespace then 1 else 0
      -- lines 81-101
      let (max_width, max_index) ← findMaxOperator tokens
      -- lines 103-112
      if tokens.length ≥ 3 + fni &&
         (tokens.getD fni default).type = .name &&
         (tokens.getD (fni+1) default).type = .whitespace &&
         [TokenType.name, .l_square, .string].contains (tokens.getD (fni+2) default).type &&
         (tokens.getD (fni+1) default).value.length > max_width then do
        let arg ← build_expression_tree fuel' (tokens.drop (fni+1))
        .ok (.FunctionNode (tokens.getD fni default).value [arg])
      else
        match max_index with
        | none =>
          -- lines 115-193
          match tokens_without_whitespace.head? with
          -- lines 122-123: the IndexError handler indexes the empty list again, and that
          -- second, uncaught IndexError is what propagates
          | none => .error .indexError
          | some name_or_value =>
            if ¬ [TokenType.name, .l_square, .string].contains name_or_value.type then
              .error (.fatal "Expected name or value.")
            else
              -- lines 126-173: the full-span list form
              let isFullList :=
                name_or_value.type = .l_square &&
                firstClosingAux tokens_without_whitespace.tail 1 1 =
                  some (tokens_without_whitespace.length - 1)
              if isFullList then
                -- lines 142-147
                let lwTok := tokens.getD (fni+1) default
                let l_width := if lwTok.type = .whitespace then lwTok.value.length else 0
                let rwTok := tokens.getD (tokens.length - ewi - 2) default
                let r_width := if rwTok.type = .whitespace then rwTok.value.length else 0
                if l_width ≠ r_width then
                  .error (.fatal "Whitespace between either bracket of a list must be equal in length.")
                else
                  -- lines 149-173
                  let all_commas := listCommasAux tokens l_width tokens.dropLast 0 0
                  if all_commas ≠ [] then do
                    let elems ← buildEach (build_expression_tree fuel')
                      (segmentSlices tokens fni all_commas (tokens.length - 1 - ewi))
                    .ok (.ListNode elems)
                  else do
                    let single ← build_expression_tree fuel'
                      ((tokens.drop (fni+1)).take (tokens.length - ewi - 1 - (fni+1)))
                    .ok (.ListNode [single])
              else
                -- lines 176-191: the trailing-index form
                let end_index := tokens.length - ewi - 1
                let idxSplit :=
                  if (tokens_without_whitespace.getLastD default).type = .r_square then
                    findIndexSplitRev (tokens.take end_index).enum.reverse (-1)
                  else none
                match idxSplit with
                | some i => do
                  let base ← build_expression_tree fuel' ((tokens.drop fni).take (i - fni))
                  let idx ← build_expression_tree fuel' ((tokens.drop (i+1)).take (end_index - (i+1)))
                  .ok (.IndexNode base idx)
                -- line 193
                | none => .ok (.Value name_or_value)
        | some mi =>
          -- line 196: `.value` of the winning entry (always a converted operator)
          let opv := match STR_TO_OPERATOR (tokens.getD mi default).value with
                     | some op => op.strValue
                     | none => (tokens.getD mi default).value
          if opv = "," then
            -- lines 196-217: function-call form
            match tokens_without_whitespace with
            | [] => .error .indexError
            | t0 :: rest0 =>
              if t0.type ≠ .name then
                .error (.fatal "Expected function call. This is likely an issue of whitespace, as DreamBerd replaces parentheses with spaces and has significant whitespace.")
              else
                match rest0 with
                -- line 202 indexes tokens_without_whitespace[1] unguarded
                | [] => .error .indexError
                | t1 :: _ =>
                  if ¬ [TokenType.name, .l_square, .string].contains t1.type then
                    .error (.fatal "Expected function call. This is likely an issue of whitespace, as DreamBerd replaces parentheses with spaces and has significant whitespace.")
                  else do
                    let all_commas := funcCommasAux tokens max_width tokens 0
                    let args ← buildEach (build_expression_tree fuel')
                      (segmentSlices tokens fni all_commas tokens.length)
                    .ok (.FunctionNode t0.value args)
          else
            -- lines 219-224: binary split at the winning operator
            match STR_TO_OPERATOR (tokens.getD mi default).value with
            | some op => do
              let l ← build_expression_tree fuel' (tokens.take mi)
              let r ← build_expression_tree fuel' (tokens.drop (mi+1))
              .ok (.ExpressionNode l r op)
            | none => .error (.fatal "Something went wrong here.")

/-!
Labelled-value model for the copy-on-read path of `evaluate_expression`
(`interpreter.py:343-349`).  Python object identity is invisible on pure data, so here every
node of a value graph carries an identity label; `copy.deepcopy` — the documented stdlib
behaviour the source relies on at line 348 — allocates a fresh object for every node of the
copied graph, modelled as relabelling with fresh labels drawn from a counter.  The payload
fragment (numbers, strings, undefined, nested lists) is enough to exhibit both a mutable
composite and atomic leaves.
-/

mutual
inductive PyVal where
  | num (id : Nat) (value : ℚ)
  | strv (id : Nat) (value : String)
  | undef (id : Nat)
  | lst (id : Nat) (elems : PyValList)
inductive PyValList where
  | nil
  | cons (hd : PyVal) (tl : PyValList)
end

mutual
/-- `copy.deepcopy`: structurally identical result, every node a fresh allocation (labels
taken from the counter upward); returns the copy and the bumped counter. -/
def PyVal.relabel : PyVal → Nat → PyVal × Nat
  | .num _ v, c => (.num c v, c+1)
  | .strv _ s, c => (.strv c s, c+1)
  | .undef _, c => (.undef c, c+1)
  | .lst _ es, c =>
    let p := PyValList.relabel es (c+1)
    (.lst c p.1, p.2)
def PyValList.relabel : PyValList → Nat → PyValList × Nat
  | .nil, c => (.nil, c)
  | .cons h t, c =>
    let p := PyVal.relabel h c
    let q := PyValList.relabel t p.2
    (.cons p.1 q.1, q.2)
end

mutual
/-- All identity labels occurring in a value graph. -/
def PyVal.ids : PyVal → List Nat
  | .num i _ => [i]
  | .strv i _ => [i]
  | .undef i => [i]
  | .lst i es => i :: PyValList.ids es
def PyValList.ids : PyValList → List Nat
  | .nil => []
  | .cons h t => PyVal.ids h ++ PyValList.ids t
end

mutual
/-- Forget the identity labels, producing the corresponding pure runtime value. -/
def PyVal.erase : PyVal → Value
  | .num _ v => .DreamberdNumber v
  | .strv _ s => .DreamberdString s
  | .undef _ => .DreamberdUndefined
  | .lst _ es => .DreamberdList (PyValList.erase es)
def PyValList.erase : PyValList → List Value
  | .nil => []
  | .cons h t => PyVal.erase h :: PyValList.erase t
end

/-- Scope lookup in the labelled model (the dict `.get` of `interpreter.py:71`). -/
def pyScopeGet (name : String) : List (String × PyVal) → Option PyVal
  | [] => none
  | (k, v) :: rest => if k = name then some v else pyScopeGet name rest

/-- Scope-list scan in the labelled model (`interpreter.py:70-72`). -/
def scanScopesPy (name : String) : List (List (String × PyVal)) → Option PyVal
  | [] => none
  | ns :: rest =>
    match pyScopeGet name ns with
    | some v => some v
    | none => scanScopesPy name rest

/-- All identity labels held by the bindings of one scope. -/
def scopeIdsNs : List (String × PyVal) → List Nat
  | [] => []
  | p :: rest => p.snd.ids ++ scopeIdsNs rest

/-- All identity labels held by the bindings of a scope list. -/
def scopeIds : List (List (String × PyVal)) → List Nat
  | [] => []
  | ns :: rest => scopeIdsNs ns ++ scopeIds rest

/-- The bound-name read path of `evaluate_expression` (`interpreter.py:346-348`) in the
labelled model: resolve the plain name in the scope list and return
`deepcopy(v.value)` — a freshly allocated copy — leaving the scopes untouched; an unbound
name returns nothing (the literal fallback of line 349 involves no binding).  Result:
(value read, bumped allocation counter, scope list after the read). -/
def read_value_node (scopes : List (List (String × PyVal))) (counter : Nat) (name : String) :
    Option PyVal × Nat × List (List (String × PyVal)) :=
  match scanScopesPy name scopes with
  | some v =>
    let p := PyVal.relabel v counter
    (some p.1, p.2, scopes)
  | none => (none, counter, scopes)

mutual
/-- A deep copy preserves the payload, and every label of the copy lies in the fresh range
`[c, c2)` handed out by the allocation counter. -/
theorem pyValRelabelFresh (v : PyVal) (c : Nat) :
    c ≤ (PyVal.relabel v c).2 ∧
    (PyVal.relabel v c).1.erase = v.erase ∧
    ∀ i ∈ (PyVal.relabel v c).1.ids, c ≤ i ∧ i < (PyVal.relabel v c).2 := by
  cases v with
  | num id val => simp [PyVal.relabel, PyVal.ids, PyVal.erase]
  | strv id s => simp [PyVal.relabel, PyVal.ids, PyVal.erase]
  | undef id => simp [PyVal.relabel, PyVal.ids, PyVal.erase]
  | lst id es =>
    have h := pyValListRelabelFresh es (c+1)
    have hc1 : c + 1 ≤ (PyValList.relabel es (c+1)).2 := h.1
    refine ⟨?_, ?_, ?_⟩
    · simp only [PyVal.relabel]
      omega
    · simp [PyVal.relabel, PyVal.erase, h.2.1]
    · intro i hi
      simp only [PyVal.relabel, PyVal.ids, List.mem_cons] at hi
      simp only [PyVal.relabel]
      rcases hi with hi | hi
      · constructor <;> omega
      · have h3 := h.2.2 i hi
        constructor <;> omega
theorem pyValListRelabelFresh (l : PyValList) (c : Nat) :
    c ≤ (PyValList.relabel l c).2 ∧
    (PyValList.relabel l c).1.erase = l.erase ∧
    ∀ i ∈ (PyValList.relabel l c).1.ids, c ≤ i ∧ i < (PyValList.relabel l c).2 := by
  cases l with
  | nil => simp [PyValList.relabel, PyValList.ids, PyValList.erase]
  | cons hd tl =>
    have h1 := pyValRelabelFresh hd c
    have h2 := pyValListRelabelFresh tl (PyVal.relabel hd c).2
    refine ⟨by simp [PyValList.relabel]; omega, ?_, ?_⟩
    · simp [PyValList.relabel, PyValList.erase, h1.2.1, h2.2.1]
    · intro i hi
      simp [PyValList.relabel, PyValList.ids] at hi
      rcases hi with hi | hi
      · have := h1.2.2 i hi
        refine ⟨this.1, ?_⟩
        simp [PyValList.relabel]
        omega
      · have := h2.2.2 i hi
        refine ⟨by omega, ?_⟩
        simp [PyValList.relabel]
        omega
end

/-- A value found by the scope scan holds only labels that the scope list holds. -/
theorem scanScopesPy_ids_subset (name : String) (scopes : List (List (String × PyVal)))
    (v : PyVal) (hv : scanScopesPy name scopes = some v) :
    ∀ i ∈ v.ids, i ∈ scopeIds scopes := by
  induction scopes with
  | nil => simp [scanScopesPy] at hv
  | cons ns rest ih =>
    have hns : ∀ (w : PyVal), pyScopeGet name ns = some w → ∀ i ∈ w.ids, i ∈ scopeIdsNs ns := by
      clear hv
      induction ns with
      | nil => intro w hw; simp [pyScopeGet] at hw
      | cons p ps ihp =>
        intro w hw i hi
        simp only [pyScopeGet] at hw
        by_cases hk : p.fst = name
        · simp [hk] at hw
          subst hw
          simp [scopeIdsNs]
          exact Or.inl hi
        · simp [hk] at hw
          simp [scopeIdsNs]
          exact Or.inr (ihp w hw i hi)
    simp only [scanScopesPy] at hv
    cases hg : pyScopeGet name ns with
    | some w =>
      rw [hg] at hv
      simp at hv
      intro i hi
      simp [scopeIds]
      left
      apply hns v ?_ i hi
      rw [hg, hv]
    | none =>
      rw [hg] at hv
      intro i hi
      simp [scopeIds]
      exact Or.inr (ih hv i hi)

/-!
Claim theorems.  Concrete instantiations fix the external oracles to harmless constants:
`ratio0` is a string-similarity oracle, never consulted on the inputs used.
-/

def ratio0 : String → String → ℚ := fun _ _ => 0

/-- Claim C1.  The claim states that for Numbers `a`, `b` with `a ≠ 0`, tier-4 approximate
equality holds iff `a = b` or `|(a - b) / a| ≤ 0.1`.  The code (`interpreter.py:110`)
instead tests `(a - b) / a > 0.1` — no absolute value and an inverted comparison — so at
`a = 1, b = 4/5` (relative difference 0.2, far outside the claimed tolerance) the code
answers true, and at `a = 1, b = 21/20` (relative difference 0.05, inside the claimed
tolerance) the code answers false: the code contradicts the claim in both directions. -/
theorem claim_C1_is_approx_equal_code_bug :
    is_approx_equal ratio0 false 1 (.DreamberdNumber 1) (.DreamberdNumber (4/5)) = .ok (some true) ∧
    ¬((1 : ℚ) = 4/5 ∨ |((1 : ℚ) - 4/5) / 1| ≤ 1/10) ∧
    is_approx_equal ratio0 false 1 (.DreamberdNumber 1) (.DreamberdNumber (21/20)) = .ok (some false) ∧
    ((1 : ℚ) ≠ 21/20 ∧ |((1 : ℚ) - 21/20) / 1| ≤ 1/10) := by
  have d1 : ((1 : ℚ) - 4/5) / 1 = 1/5 := by norm_num
  have d2 : ((1 : ℚ) - 21/20) / 1 = -(1/20) := by norm_num
  refine ⟨?_, ?_, ?_, ?_⟩
  · have e1 : ((1 : ℚ) == 4/5) = false := by
      rw [beq_eq_false_iff_ne]
      norm_num
    have e2 : ((1 : ℚ) == 0) = false := by
      rw [beq_eq_false_iff_ne]
      norm_num
    have e2b : decide ((1 : ℚ) = 0) = false := by
      rw [decide_eq_false_iff_not]
      norm_num
    have e3 : decide (NUM_EQUALITY_THRESH < ((1 : ℚ) - 4/5) / 1) = true := by
      rw [decide_eq_true_eq, NUM_EQUALITY_THRESH, d1]
      norm_num
    simp [is_approx_equal, ratio0, Value.isString, Value.isNumber, isNumUndefBool,
          db_to_number, Bind.bind, Except.bind, e1, e2, e2b, e3]
    norm_num [NUM_EQUALITY_THRESH]
  · rw [d1, abs_of_pos (by norm_num : (0:ℚ) < 1/5)]
    norm_num
  · have e1 : ((1 : ℚ) == 21/20) = false := by
      rw [beq_eq_false_iff_ne]
      norm_num
    have e2 : ((1 : ℚ) == 0) = false := by
      rw [beq_eq_false_iff_ne]
      norm_num
    have e2b : decide ((1 : ℚ) = 0) = false := by
      rw [decide_eq_false_iff_not]
      norm_num
    have e3 : decide (NUM_EQUALITY_THRESH < ((1 : ℚ) - 21/20) / 1) = false := by
      rw [decide_eq_false_iff_not, NUM_EQUALITY_THRESH, d2]
      norm_num
    simp [is_approx_equal, ratio0, Value.isString, Value.isNumber, isNumUndefBool,
          db_to_number, Bind.bind, Except.bind, e1, e2, e2b, e3]
    norm_num [NUM_EQUALITY_THRESH]
  · rw [d2, abs_neg, abs_of_pos (by norm_num : (0:ℚ) < 1/20)]
    norm_num

/-- Claim C2.  The claim states that `>=`/`<=` first test tier-2 structural equality and
fall back to the ordering comparison when the operands are not structurally equal.  The
code (`interpreter.py:292`) tests the truthiness of the `DreamberdBoolean` object itself
(`if is_really_equal(left, right):` — the `.value` is missing), and the object is always
truthy, so `<=` answers true on `2 <= 1` even though `2` and `1` are not structurally
equal and `is_less_than 2 1` is false (and symmetrically `>=` answers true on `1 >= 2`):
the ordering fallback the claim describes is unreachable. -/
theorem claim_C2_ge_le_code_bug :
    perform_two_value_operation ratio0 false false 1
      (.DreamberdNumber 2) (.DreamberdNumber 1) .LE = .ok (.DreamberdBoolean (some true)) ∧
    perform_two_value_operation ratio0 false false 1
      (.DreamberdNumber 1) (.DreamberdNumber 2) .GE = .ok (.DreamberdBoolean (some true)) ∧
    is_really_equal 1 (.DreamberdNumber 2) (.DreamberdNumber 1) = .ok (some false) ∧
    is_less_than (.DreamberdNumber 2) (.DreamberdNumber 1) = .ok (some false) ∧
    is_less_than (.DreamberdNumber 1) (.DreamberdNumber 2) = .ok (some true) := by
  refine ⟨rfl, rfl, by decide, by decide, by decide⟩

/-- One unfolding step of `get_value_from_namespaces` at the dotted name `"a.b"`: the
recursive call of `interpreter.py:75` passes the same full dotted name and the same scope
list. -/
theorem get_value_from_namespaces_ab_step (fuel : Nat) (namespaces : List Namespace) :
    get_value_from_namespaces (fuel+1) "a.b" namespaces =
      match get_value_from_namespaces fuel "a.b" namespaces with
      | .error e => .error e
      | .ok none => .ok none
      | .ok (some base_val) => dottedWalk base_val ["b"] := rfl

/-- Claim C3.  The claim states that dotted-name resolution resolves the head segment,
then walks the remaining segments, always terminating with a binding or absence.  The code
(`interpreter.py:74-75`) computes `base_name = v[0]` but never uses it and recurses on the
full dotted name with the same scope list, so resolution of any dotted name reduces to
itself and never terminates (a Python `RecursionError`), for every scope list — including
ones where the intended walk would succeed.  Plain-name resolution (the head-segment scan)
does terminate, first match in scope-list order. -/
theorem claim_C3_dotted_resolution_diverges :
    (∀ (fuel : Nat) (namespaces : List Namespace),
      get_value_from_namespaces fuel "a.b" namespaces = .error .recursionLimit) ∧
    (∀ (fuel : Nat) (bnd : Binding) (rest : List Namespace),
      get_value_from_namespaces (fuel+1) "b" ([("b", bnd)] :: rest) = .ok (some bnd)) := by
  constructor
  · intro fuel
    induction fuel with
    | zero => intro namespaces; rfl
    | succ n ih =>
      intro namespaces
      rw [get_value_from_namespaces_ab_step, ih]
  · intro fuel bnd rest
    rfl

def c4_keyword_scope : List Namespace :=
  [[("function", Binding.Name "function" (Value.DreamberdKeyword "function"))]]

def c4_program : List (List CodeStatement) :=
  [[.FunctionDefinition ["function"] "f" [] [] false],
   [.ExpressionStatement]]

/-- Claim C4.  The claim describes the cooperative scheduler: after each top-level
statement, every live async-queue entry advances by one statement in queue order, an
exhausted entry is removed, and top-level statements run before async bodies advance.  The
code cannot do any of this: `interpret_code_statements` (`interpreter.py:601-617`) calls
the six-parameter `interpret_statement` with five arguments (line 610 omits
`name_watchers`), raising `TypeError` while executing the very first top-level statement of
any program, before the async round-robin loop of lines 611-617 is ever reached — and the
loop counter `curr` is in any case never incremented, and no code anywhere removes an
exhausted queue entry.  Concretely: a two-statement program whose first statement resolves
to a well-formed function definition dies with the `TypeError` for every fuel bound and
every starting queue. -/
theorem claim_C4_scheduler_code_bug (fuel : Nat) (q : AsyncQueue) :
    interpret_code_statements (fuel+1) c4_program c4_keyword_scope q =
      .error (.typeError "interpret_statement() missing 1 required positional argument: name_watchers") := by
  rfl

/-- The statement resolver's function-definition regex always matches: every character of
the pattern `f?u?n?c?t?i?o?n?` is optional and `re.match` does not anchor the right end, so
the empty prefix is always accepted. -/
theorem matchOptSeqHere_eq_true (ps cs : List Char) : matchOptSeqHere ps cs = true := by
  induction ps generalizing cs with
  | nil => simp [matchOptSeqHere]
  | cons p ps ih =>
    cases cs with
    | nil => simp [matchOptSeqHere, ih]
    | cons c cs => by_cases h : p = c <;> simp [matchOptSeqHere, h, ih]

def c5_scope : List Namespace :=
  [[("class", Binding.Name "class" (Value.DreamberdKeyword "class"))]]

def c5_candidate : CodeStatement := .FunctionDefinition ["class"] "f" [] [] false

/-- Claim C5.  The claim states that a one-keyword function-definition candidate is
accepted only when its slot resolves to a Keyword whose spelling is a flexible spelling of
"function" (and, with two slots, the second must literally be "async").  The code
(`interpreter.py:455,461`) tests the slot with `re.match(r"f?u?n?c?t?i?o?n?", ...)`,
whose pattern is entirely optional and unanchored on the right, so it matches every string
— the resolver accepts a function-definition candidate whose keyword slot resolves to any
Keyword whatsoever.  Concretely, a candidate whose single slot resolves to the Keyword
"class" is accepted, although "class" is not a flexible spelling of "function" (the
anchored reading of the same pattern rejects it). -/
theorem claim_C5_statement_resolver_code_bug :
    determine_statement_type 1 [c5_candidate] c5_scope = .ok (some c5_candidate) ∧
    specFlexibleFunctionSpelling "class" = false ∧
    (∀ s : String, re_match_function s = true) := by
  refine ⟨rfl, by decide, fun s => matchOptSeqHere_eq_true FUNCTION_PAT s.toList⟩

/-! Token runs for the documented expression-tree shapes (whitespace tokens explicit). -/

/-- `func a, b  +  c`: two-space gap on both sides of `+`, one-space gap after the comma. -/
def c6_tokens_wide_plus : List Token :=
  [⟨.name, "func"⟩, ⟨.whitespace, " "⟩, ⟨.name, "a"⟩, ⟨.punct, ","⟩, ⟨.whitespace, " "⟩,
   ⟨.name, "b"⟩, ⟨.whitespace, "  "⟩, ⟨.punct, "+"⟩, ⟨.whitespace, "  "⟩, ⟨.name, "c"⟩]

/-- `func a, b+c`: no gap around `+`. -/
def c6_tokens_tight_plus : List Token :=
  [⟨.name, "func"⟩, ⟨.whitespace, " "⟩, ⟨.name, "a"⟩, ⟨.punct, ","⟩, ⟨.whitespace, " "⟩,
   ⟨.name, "b"⟩, ⟨.punct, "+"⟩, ⟨.name, "c"⟩]

/-- `2 * 1+3`. -/
def c6_tokens_mul : List Token :=
  [⟨.name, "2"⟩, ⟨.whitespace, " "⟩, ⟨.punct, "*"⟩, ⟨.whitespace, " "⟩,
   ⟨.name, "1"⟩, ⟨.punct, "+"⟩, ⟨.name, "3"⟩]

/-- What the code builds for `func a, b  +  c`: the widest-trailing-whitespace operator is
the `+`, so it is the top-level split — `func(a, b) + c` (which is also what the module
docstring at `expression_tree.py:61` says). -/
def c6_tree_wide_source : ExpressionTreeNode :=
  .ExpressionNode
    (.FunctionNode "func" [.Value ⟨.name, "a"⟩, .Value ⟨.name, "b"⟩])
    (.Value ⟨.name, "c"⟩) .ADD

/-- The shape the claim asserts for the same run: `func(a, b+c)`. -/
def c6_tree_wide_claim : ExpressionTreeNode :=
  .FunctionNode "func"
    [.Value ⟨.name, "a"⟩,
     .ExpressionNode (.Value ⟨.name, "b"⟩) (.Value ⟨.name, "c"⟩) .ADD]

/-- `func(a, (b+c))`: the grouped `b+c` is the single second argument. -/
def c6_tree_tight : ExpressionTreeNode :=
  .FunctionNode "func"
    [.Value ⟨.name, "a"⟩,
     .ExpressionNode (.Value ⟨.name, "b"⟩) (.Value ⟨.name, "c"⟩) .ADD]

/-- `2 * (1+3)`. -/
def c6_tree_mul : ExpressionTreeNode :=
  .ExpressionNode (.Value ⟨.name, "2"⟩)
    (.ExpressionNode (.Value ⟨.name, "1"⟩) (.Value ⟨.name, "3"⟩) .ADD) .MUL

/-- Claim C6, counterexample.  For `func a, b  +  c` the claim asserts the tree
`func(a, b+c)`; the builder instead selects the `+` (the depth-0 operator with the widest
trailing whitespace) as the top-level split and produces `func(a, b) + c`, exactly as the
module docstring documents. -/
theorem claim_C6_counterexample :
    build_expression_tree 20 c6_tokens_wide_plus = .ok c6_tree_wide_source ∧
    build_expression_tree 20 c6_tokens_wide_plus ≠ .ok c6_tree_wide_claim := by
  have h : build_expression_tree 20 c6_tokens_wide_plus = .ok c6_tree_wide_source := rfl
  refine ⟨h, ?_⟩
  rw [h]
  intro he
  injection he with he2
  simp [c6_tree_wide_source, c6_tree_wide_claim] at he2

/-- Claim C6 as amended.  The widest-trailing-whitespace split rule gives:
`func a, b  +  c` builds to `func(a, b) + c` (the `+` outranks the comma, so the call is
its left operand); `func a, b+c` builds to `func(a, (b+c))` with the grouped sum as the
single second argument; `2 * 1+3` builds to `2 * (1+3)`. -/
theorem claim_C6_expression_tree_shapes :
    build_expression_tree 20 c6_tokens_wide_plus = .ok c6_tree_wide_source ∧
    build_expression_tree 20 c6_tokens_tight_plus = .ok c6_tree_tight ∧
    build_expression_tree 20 c6_tokens_mul = .ok c6_tree_mul := by
  refine ⟨rfl, rfl, rfl⟩

/-- Claim C7.  The tri-state lattice of the logical operators
(`interpreter.py:257-274`), for arbitrary operands and an arbitrary coin for the
indeterminate-indeterminate draw: a concrete left operand fully decides both operators
(AND: true-left gives the right operand, false-left the left; OR: true-left gives the left
operand, false-left the right); an indeterminate operand paired with the non-dominant
concrete value yields the indeterminate operand itself (the claim's "non-dominant original
operand", as fixed by its own test vector AND(true, indeterminate) = right operand), while
pairing with the dominant value yields the dominant operand; and two indeterminate
operands yield one of the two original operand values — never a fresh boolean literal —
selected by the 50/50 coin. -/
theorem claim_C7_tri_state_lattice (ratio : String → String → ℚ) (ref_eq coin : Bool)
    (fuel : Nat) (left right : Value) :
    (db_to_boolean left = some true →
      perform_two_value_operation ratio ref_eq coin fuel left right .AND = .ok right ∧
      perform_two_value_operation ratio ref_eq coin fuel left right .OR = .ok left) ∧
    (db_to_boolean left = some false →
      perform_two_value_operation ratio ref_eq coin fuel left right .AND = .ok left ∧
      perform_two_value_operation ratio ref_eq coin fuel left right .OR = .ok right) ∧
    (db_to_boolean left = none → db_to_boolean right = some true →
      perform_two_value_operation ratio ref_eq coin fuel left right .AND = .ok left ∧
      perform_two_value_operation ratio ref_eq coin fuel left right .OR = .ok right) ∧
    (db_to_boolean left = none → db_to_boolean right = some false →
      perform_two_value_operation ratio ref_eq coin fuel left right .AND = .ok right ∧
      perform_two_value_operation ratio ref_eq coin fuel left right .OR = .ok left) ∧
    (db_to_boolean left = none → db_to_boolean right = none →
      perform_two_value_operation ratio ref_eq coin fuel left right .AND =
        .ok (if coin then left else right) ∧
      perform_two_value_operation ratio ref_eq coin fuel left right .OR =
        .ok (if coin then left else right) ∧
      (perform_two_value_operation ratio ref_eq coin fuel left right .AND = .ok left ∨
       perform_two_value_operation ratio ref_eq coin fuel left right .AND = .ok right)) := by
  refine ⟨fun h1 => ?_, fun h1 => ?_, fun h1 h2 => ?_, fun h1 h2 => ?_, fun h1 h2 => ?_⟩
  · constructor <;> simp [perform_two_value_operation, h1]
  · constructor <;> simp [perform_two_value_operation, h1]
  · constructor <;> simp [perform_two_value_operation, h1, h2]
  · constructor <;> simp [perform_two_value_operation, h1, h2]
  · refine ⟨by simp [perform_two_value_operation, h1, h2], by simp [perform_two_value_operation, h1, h2], ?_⟩
    cases hc : coin
    · right
      simp [perform_two_value_operation, h1, h2, hc]
    · left
      simp [perform_two_value_operation, h1, h2, hc]

/-- Claim C7, witness: AND with a true left operand returns the right operand; AND of an
indeterminate left with a concrete true right returns the (indeterminate) left operand; OR
of two indeterminate operands returns the operand the coin picks. -/
theorem claim_C7_tri_state_lattice_witness :
    perform_two_value_operation ratio0 false false 1
      (.DreamberdBoolean (some true)) (.DreamberdNumber 5) .AND = .ok (.DreamberdNumber 5) ∧
    perform_two_value_operation ratio0 false false 1
      (.DreamberdBoolean none) (.DreamberdBoolean (some true)) .AND = .ok (.DreamberdBoolean none) ∧
    perform_two_value_operation ratio0 false true 1
      (.DreamberdBoolean none) (.DreamberdBoolean none) .OR = .ok (.DreamberdBoolean none) := by
  refine ⟨?_, ?_, ?_⟩
  · exact ((claim_C7_tri_state_lattice ratio0 false false 1
      (.DreamberdBoolean (some true)) (.DreamberdNumber 5)).1 rfl).1
  · exact (((claim_C7_tri_state_lattice ratio0 false false 1
      (.DreamberdBoolean none) (.DreamberdBoolean (some true))).2.2.1) rfl rfl).1
  · exact (((claim_C7_tri_state_lattice ratio0 false true 1
      (.DreamberdBoolean none) (.DreamberdBoolean none)).2.2.2.2) rfl rfl).2.1

/-- Claim C8.  Builtin function invocation (`interpreter.py:31-37`), conditioned on the
argument subtrees evaluating to the list `args`: supplying more arguments than the declared
arity is a fatal diagnostic, while supplying at most the declared arity succeeds with the
native callable receiving exactly the supplied argument list (`args[:arg_count] = args`
when the supply does not exceed the arity) — visible below as `env native_id args` — with a
`None`-ish native result becoming `DreamberdUndefined` and a native-raised typed error
becoming a fatal diagnostic at the call site. -/
theorem claim_C8_builtin_arity (env : NativeEnv) (fuel : Nat) (name : String)
    (args_exprs : List ExpressionTreeNode) (arg_count native_id : Nat)
    (namespaces : List Namespace) (q0 q1 : AsyncQueue) (args : List Value)
    (hargs : evalListWith (fun x q => evaluate_expression fuel x namespaces q) args_exprs q0 =
      .ok (args, q1)) :
    (arg_count < args.length →
      evaluate_normal_function env fuel name args_exprs (.BuiltinFunction arg_count native_id)
        namespaces q0 = .error (.fatal "Expected more arguments for function call.")) ∧
    (args.length ≤ arg_count →
      evaluate_normal_function env fuel name args_exprs (.BuiltinFunction arg_count native_id)
        namespaces q0 =
        match env native_id args with
        | .error e => .error (.fatal e)
        | .ok r => .ok (r.getD .DreamberdUndefined, q1)) := by
  constructor
  · intro hlt
    simp [evaluate_normal_function, hargs, Bind.bind, Except.bind, hlt]
  · intro hle
    have htake : args.take arg_count = args := List.take_of_length_le hle
    simp [evaluate_normal_function, hargs, Bind.bind, Except.bind, Nat.not_lt.mpr hle, htake]

def c8_env : NativeEnv := fun _ received => .ok (some (.DreamberdList received))

def c8_arg_exprs : List ExpressionTreeNode :=
  [.Value ⟨.string, "x"⟩, .Value ⟨.string, "y"⟩]

/-- Claim C8, witness: with a two-string argument list, an arity-3 builtin receives exactly
the two supplied arguments (the echoing native returns them as a list), and an arity-1
builtin is a fatal error. -/
theorem claim_C8_builtin_arity_witness :
    evaluate_normal_function c8_env 1 "f" c8_arg_exprs (.BuiltinFunction 3 0) [] [] =
      .ok (.DreamberdList [.DreamberdString "x", .DreamberdString "y"], []) ∧
    evaluate_normal_function c8_env 1 "f" c8_arg_exprs (.BuiltinFunction 1 0) [] [] =
      .error (.fatal "Expected more arguments for function call.") := by
  constructor
  · have h := (claim_C8_builtin_arity c8_env 1 "f" c8_arg_exprs 3 0 [] [] []
      [.DreamberdString "x", .DreamberdString "y"] rfl).2 (by decide)
    exact h.trans (by rfl)
  · exact (claim_C8_builtin_arity c8_env 1 "f" c8_arg_exprs 1 0 [] [] []
      [.DreamberdString "x", .DreamberdString "y"] rfl).1 (by decide)

/-- Claim C9.  Copy-on-read in the labelled model: reading a bound name returns the deep
copy `(PyVal.relabel v counter).1` of the stored value `v` — structurally equal to `v` but
sharing no object identity with anything the scope list holds (in particular it is not the
stored instance, and no binding aliases any part of it) — and the read leaves the scope
list unchanged.  The hypothesis `hwf` is the allocation invariant: every label in the store
is below the allocation counter. -/
theorem claim_C9_copy_on_read (scopes : List (List (String × PyVal))) (counter : Nat)
    (name : String) (v : PyVal)
    (hfound : scanScopesPy name scopes = some v)
    (hwf : ∀ i ∈ scopeIds scopes, i < counter) :
    (read_value_node scopes counter name).1 = some (PyVal.relabel v counter).1 ∧
    (PyVal.relabel v counter).1.erase = v.erase ∧
    (∀ i ∈ (PyVal.relabel v counter).1.ids, ∀ j ∈ scopeIds scopes, i ≠ j) ∧
    (read_value_node scopes counter name).2.2 = scopes := by
  have hspec := pyValRelabelFresh v counter
  refine ⟨?_, hspec.2.1, ?_, ?_⟩
  · simp [read_value_node, hfound]
  · intro i hi j hj
    have h1 := (hspec.2.2 i hi).1
    have h2 := hwf j hj
    omega
  · simp [read_value_node, hfound]

def c9_scopes : List (List (String × PyVal)) :=
  [[("x", PyVal.lst 0 (.cons (.num 1 3) .nil))]]

/-- Claim C9, witness: one scope binding `x` to a labelled one-element list, allocation
counter 2. -/
theorem claim_C9_copy_on_read_witness :
    (read_value_node c9_scopes 2 "x").1 =
      some (PyVal.relabel (PyVal.lst 0 (.cons (.num 1 3) .nil)) 2).1 ∧
    (PyVal.relabel (PyVal.lst 0 (.cons (.num 1 3) .nil)) 2).1.erase =
      (PyVal.lst 0 (.cons (.num 1 3) .nil)).erase ∧
    (∀ i ∈ (PyVal.relabel (PyVal.lst 0 (.cons (.num 1 3) .nil)) 2).1.ids,
      ∀ j ∈ scopeIds c9_scopes, i ≠ j) ∧
    (read_value_node c9_scopes 2 "x").2.2 = c9_scopes :=
  claim_C9_copy_on_read c9_scopes 2 "x" (PyVal.lst 0 (.cons (.num 1 3) .nil)) rfl (by decide)

/-- Claim C10.  For every `IndexNode`, regardless of its subtrees (they could be arbitrary,
even expressions whose own evaluation would fault), `evaluate_expression` returns the bare
base-class instance `Value()` without error and without touching the async queue: the
`case IndexNode(): pass` of `interpreter.py:351-352` falls through to `return Value()` at
line 357 with neither subtree evaluated. -/
theorem claim_C10_index_node_inert (base idx : ExpressionTreeNode)
    (namespaces : List Namespace) (q : AsyncQueue) (fuel : Nat) :
    evaluate_expression (fuel+1) (.IndexNode base idx) namespaces q = .ok (.BaseValue, q) := rfl
